import Mathlib

/-!
# flutter_feature_tour: the Windows plugin registration shim

The fragment under verification is

* `windows/flutter_feature_tour_plugin_c_api.cpp`: the C-linkage function
  `FlutterFeatureTourPluginCApiRegisterWithRegistrar`;
* `windows/flutter_feature_tour_plugin.h`: the declaration of the class
  `flutter_feature_tour::FlutterFeatureTourPlugin`.

The C function is a straight line of three calls into code that lives
elsewhere.  It is embedded as a tree of calls (`Prog`): each node names the
call that is made and continues with the value the callee answers.  What the
callees do is not fixed here: a `Host` gives every call a state transformer
that may fail, and `Prog.run` threads the state through the calls, stops at
the first failure (a C++ exception leaving the function) and records the calls
in the order they are made.
-/

set_option autoImplicit false

/-! ## Values crossing the boundary -/

/-- The registrar handle `FlutterDesktopPluginRegistrarRef`: an address-sized
    value the function never looks into. -/
abbrev FlutterDesktopPluginRegistrarRef := Nat

/-- The null pointer, for the pointers `PluginRegistrarManager *` and
    `flutter::PluginRegistrarWindows *`, which are addresses. -/
def nullptr : Nat := 0

/-! ## Calls leaving the translation unit -/

/-- The calls written in `flutter_feature_tour_plugin_c_api.cpp`, with their
    arguments: `PluginRegistrarManager::GetInstance()`,
    `manager->GetRegistrar<PluginRegistrarWindows>(registrar)` and
    `FlutterFeatureTourPlugin::RegisterWithRegistrar(registrar)`. -/
inductive HostCall where
  | GetInstance
  | GetRegistrar (manager : Nat) (registrar : FlutterDesktopPluginRegistrarRef)
  | RegisterWithRegistrar (registrar : Nat)
  deriving DecidableEq, Repr

/-- What each call hands back: the two lookups return a pointer, the
    registration function is `void`. -/
def HostCall.Answer : HostCall → Type
  | .GetInstance => Nat
  | .GetRegistrar _ _ => Nat
  | .RegisterWithRegistrar _ => Unit

/-- Whether a call is a call of
    `FlutterFeatureTourPlugin::RegisterWithRegistrar`. -/
def HostCall.isRegisterWithRegistrar : HostCall → Bool
  | .RegisterWithRegistrar _ => true
  | _ => false

/-- Whether a call is a call of `GetRegistrar`. -/
def HostCall.isGetRegistrar : HostCall → Bool
  | .GetRegistrar _ _ => true
  | _ => false

/-- A function body as a tree of calls: return a value, or make a call and go
    on with its answer. -/
inductive Prog (α : Type) : Type where
  | ret (a : α)
  | call (c : HostCall) (k : HostCall.Answer c → Prog α)

/-- The code behind the calls: from a state, each call leaves a state and
    either an answer or a failure. -/
structure Host (σ ε : Type) where
  answer : (c : HostCall) → σ → σ × Except ε (HostCall.Answer c)

/-- What an execution leaves behind: the calls made, in order, the final
    state, and the value returned or the failure that ended the execution. -/
structure Run (σ ε α : Type) where
  trace : List HostCall
  state : σ
  outcome : Except ε α

/-- Execution of a body against a host.  A failing call ends the execution
    with that failure: nothing in the body catches it. -/
def Prog.run {σ ε α : Type} (h : Host σ ε) : Prog α → σ → Run σ ε α
  | .ret a, s => ⟨[], s, .ok a⟩
  | .call c k, s =>
    match h.answer c s with
    | (s1, .error e) => ⟨[c], s1, .error e⟩
    | (s1, .ok a) =>
      let r := (k a).run h s1
      ⟨c :: r.trace, r.state, r.outcome⟩

/-! ## The registration function -/

/-- The function of `flutter_feature_tour_plugin_c_api.cpp`:
    the argument `GetInstance()->GetRegistrar<PluginRegistrarWindows>(registrar)`
    is evaluated first, then `RegisterWithRegistrar` is called on its value;
    the function is `void`. -/
def FlutterFeatureTourPluginCApiRegisterWithRegistrar
    (registrar : FlutterDesktopPluginRegistrarRef) : Prog Unit :=
  .call .GetInstance fun manager =>
  .call (.GetRegistrar manager registrar) fun windowsRegistrar =>
  .call (.RegisterWithRegistrar windowsRegistrar) fun _ =>
  .ret ()

/-- The host's registrar lookup `GetInstance()->GetRegistrar(registrar)` on its
    own: the state it leaves and the pointer it yields, or its failure. -/
def registrarLookup {σ ε : Type} (h : Host σ ε)
    (registrar : FlutterDesktopPluginRegistrarRef) (s : σ) : σ × Except ε Nat :=
  match h.answer .GetInstance s with
  | (s1, .error e) => (s1, .error e)
  | (s1, .ok manager) => h.answer (.GetRegistrar manager registrar) s1

/-- The callees of the registration function one after the other, as the
    host runs them, with nothing between them but the state one hands to the
    next: the registrar lookup from the state `s`, then, when the lookup
    yields a pointer, `RegisterWithRegistrar` on that pointer from the state
    the lookup left.  The result is the state left and the outcome. -/
def calleesInSequence {σ ε : Type} (h : Host σ ε)
    (registrar : FlutterDesktopPluginRegistrarRef) (s : σ) : σ × Except ε Unit :=
  match registrarLookup h registrar s with
  | (s2, .error e) => (s2, .error e)
  | (s2, .ok w) => h.answer (.RegisterWithRegistrar w) s2

/-! ## The class declaration of `flutter_feature_tour_plugin.h` -/

/-- The kinds of member a C++ class declaration can list. -/
inductive MemberKind where
  | staticMemberFunction
  | constructor
  | destructor
  | deletedCopyConstructor
  | deletedCopyAssignment
  | memberFunction
  | dataMember
  | staticDataMember
  deriving DecidableEq, Repr

/-- Whether a member holds state: a data member, per object or static. -/
def MemberKind.isData : MemberKind → Bool
  | .dataMember => true
  | .staticDataMember => true
  | _ => false

/-- The state of a `FlutterFeatureTourPlugin` object, as far as this class
    declares it: the class declares no data member, so the record has no
    field.  The base class `flutter::Plugin` is the framework's and is not
    part of the record. -/
structure flutter_feature_tour.FlutterFeatureTourPlugin where
  deriving DecidableEq, Repr

/-- The members the class declaration lists, in the order of the header. -/
def flutter_feature_tour.FlutterFeatureTourPlugin.members : List (MemberKind × String) :=
  [ (.staticMemberFunction, "RegisterWithRegistrar"),
    (.constructor, "FlutterFeatureTourPlugin"),
    (.destructor, "~FlutterFeatureTourPlugin"),
    (.deletedCopyConstructor, "FlutterFeatureTourPlugin"),
    (.deletedCopyAssignment, "operator="),
    (.memberFunction, "HandleMethodCall") ]

/-! ## The parts of the plugin whose bodies are outside the fragment

The header declares `RegisterWithRegistrar` and `HandleMethodCall`; their
bodies, and the framework types they work on, are not part of the fragment.
They are modelled below from the specification's description of the boundary:
"a registrar handle is passed in, and the plugin is expected to register a
method channel and respond to method calls via a result callback". -/

/-- Modelled from the spec: the framework type `flutter::EncodableValue`
    ("encodable value", a host-framework type passed through unchanged); only
    a few shapes of value are kept. -/
inductive EncodableValue where
  | null
  | bool (b : Bool)
  | int (i : Int)
  | string (s : String)
  deriving DecidableEq, Repr

/-- Modelled from the spec: the framework type `flutter::MethodCall` ("method
    call"): a method name and its arguments. -/
structure MethodCall where
  method_name : String
  arguments : EncodableValue
  deriving DecidableEq, Repr

/-- Modelled from the spec: the three ways the framework lets a method call be
    answered through its result callback: success, error, not implemented. -/
inductive Reply where
  | Success (value : EncodableValue)
  | Error (error_code error_message : String) (error_details : EncodableValue)
  | NotImplemented
  deriving DecidableEq, Repr

/-- Modelled from the spec: the framework type `flutter::MethodResult` ("method
    result", the result callback): the replies it has been given so far, in
    order; none yet for a call still waiting for its answer. -/
structure MethodResult where
  replies : List Reply
  deriving DecidableEq, Repr

/-- Modelled from the spec: a result callback that has not been answered
    yet. -/
def MethodResult.pending : MethodResult := ⟨[]⟩

/-- Modelled from the spec: answering through the result callback, the common
    shape of the framework's `Success`, `Error` and `NotImplemented`. -/
def MethodResult.complete (result : MethodResult) (reply : Reply) : MethodResult :=
  ⟨result.replies ++ [reply]⟩

/-- Modelled from the spec: whether the result callback has been answered. -/
def MethodResult.completed (result : MethodResult) : Bool :=
  !result.replies.isEmpty

/-- Modelled from the spec: the body of `FlutterFeatureTourPlugin::HandleMethodCall`,
    which the fragment does not contain.  The spec gives it one duty, to
    "respond to method calls via a result callback", and says its handling
    logic is not shown: the logic that picks the reply is the parameter
    `logic`, and the reply it picks is given to the result callback that was
    passed in.  The object has no data member, so nothing of it is consulted. -/
def flutter_feature_tour.FlutterFeatureTourPlugin.HandleMethodCall
    (logic : MethodCall → Reply) (_self : flutter_feature_tour.FlutterFeatureTourPlugin)
    (method_call : MethodCall) (result : MethodResult) : MethodResult :=
  result.complete (logic method_call)

/-- Modelled from the spec: the framework type `flutter::PluginRegistrarWindows`,
    as far as the spec speaks of it: the method channels registered on the
    registrar, newest first, each a channel name with its method-call
    handler. -/
structure PluginRegistrarWindows where
  channels : List (String × (MethodCall → MethodResult → MethodResult))

/-- Modelled from the spec: delivery of a method call on a named channel of a
    registrar: the handler registered for the channel gets the call and the
    result callback; with no handler the callback stays unanswered. -/
def PluginRegistrarWindows.deliver (registrar : PluginRegistrarWindows) (channel : String)
    (method_call : MethodCall) (result : MethodResult) : MethodResult :=
  match registrar.channels.lookup channel with
  | some handler => handler method_call result
  | none => result

/-- Modelled from the spec: the body of
    `FlutterFeatureTourPlugin::RegisterWithRegistrar`, which the fragment does
    not contain.  Per the spec the plugin is "expected to register a method
    channel" and the registration calls into "a single plugin object's
    constructor and method-call handler": one plugin object is constructed and
    a channel whose handler is that object's `HandleMethodCall` is registered
    on the registrar passed in.  The channel name is not given by the spec and
    is the parameter `channelName`. -/
def flutter_feature_tour.FlutterFeatureTourPlugin.RegisterWithRegistrar
    (channelName : String) (logic : MethodCall → Reply)
    (registrar : PluginRegistrarWindows) : PluginRegistrarWindows :=
  let plugin : flutter_feature_tour.FlutterFeatureTourPlugin := {}
  ⟨(channelName, plugin.HandleMethodCall logic) :: registrar.channels⟩

/-- Modelled from the spec: the state the calls work on when registration is
    the modelled body: the framework's own state, of any type, and the
    registrar objects by address. -/
structure World (τ : Type) where
  framework : τ
  registrars : Nat → Option PluginRegistrarWindows

/-- Modelled from the spec: the host in which `RegisterWithRegistrar` is the
    modelled body, applied to the registrar object its argument points to (a
    pointer to no registrar object, the null pointer for one, makes the call
    fail with `invalid`), and the two lookups are the framework's, whatever
    they are. -/
def pluginHost {τ ε : Type} (channelName : String) (logic : MethodCall → Reply)
    (invalid : ε) (framework : Host (World τ) ε) : Host (World τ) ε where
  answer
    | .RegisterWithRegistrar w, s =>
      match s.registrars w with
      | none => (s, .error invalid)
      | some registrar =>
        let registered :=
          flutter_feature_tour.FlutterFeatureTourPlugin.RegisterWithRegistrar
            channelName logic registrar
        (⟨s.framework, Function.update s.registrars w (some registered)⟩, .ok ())
    | .GetInstance, s => framework.answer .GetInstance s
    | .GetRegistrar manager r, s => framework.answer (.GetRegistrar manager r) s

/-! ## State beside the host's -/

/-- A host put next to further state of type `φ` that none of its calls
    touches or consults: each call works on the first component as before and
    hands the second back as it was. -/
def Host.withFrame {σ ε : Type} (φ : Type) (h : Host σ ε) : Host (σ × φ) ε where
  answer c sf := (((h.answer c sf.1).1, sf.2), (h.answer c sf.1).2)

/-! ## Concrete hosts used to exercise the statements -/

/-- A host with a counter as state: every call bumps the counter,
    `GetInstance` yields address 7, `GetRegistrar` yields the handle plus 100,
    and registration succeeds. -/
def countingHost : Host Nat String where
  answer
    | .GetInstance, s => (s + 1, .ok (7 : Nat))
    | .GetRegistrar _ r, s => (s + 1, .ok (r + 100 : Nat))
    | .RegisterWithRegistrar _, s => (s + 1, .ok ())

/-- A host that keeps no state at all: the state is handed back untouched and
    no answer looks at it.  `GetRegistrar` yields the null pointer for the
    handle 0, and registering the null pointer fails. -/
def statelessHost : Host Nat String where
  answer
    | .GetInstance, s => (s, .ok (7 : Nat))
    | .GetRegistrar _ r, s => (s, .ok (if r = 0 then nullptr else r + 100 : Nat))
    | .RegisterWithRegistrar w, s => (s, if w = nullptr then .error "null registrar" else .ok ())

/-- A framework whose `GetRegistrar` creates the registrar object for a handle
    on first use, at the address handle plus 100, and counts its lookups.
    Registration is not the framework's: its entry here fails. -/
def creatingFramework : Host (World Nat) String where
  answer
    | .GetInstance, s => (s, .ok (7 : Nat))
    | .GetRegistrar _ r, s =>
      match s.registrars (r + 100) with
      | some _ => (⟨s.framework + 1, s.registrars⟩, .ok (r + 100 : Nat))
      | none =>
        (⟨s.framework + 1, Function.update s.registrars (r + 100) (some ⟨[]⟩)⟩,
          .ok (r + 100 : Nat))
    | .RegisterWithRegistrar _, s => (s, .error "registration is outside the framework")

/-- A world with no registrar object yet. -/
def emptyWorld : World Nat := ⟨0, fun _ => none⟩

/-- A handling logic: the method `ping` is answered with success, any other
    method is not implemented. -/
def pingLogic (method_call : MethodCall) : Reply :=
  if method_call.method_name = "ping" then .Success (.string "pong") else .NotImplemented

/-! ## Executions next to further state -/

/-- State that the callees neither touch nor consult is neither touched nor
    consulted by an execution: next to such state the execution makes the same
    calls with the same outcome, changes the host's state the same way, and
    hands the further state back as it was. -/
theorem Prog.run_withFrame {σ ε α φ : Type} (h : Host σ ε) (p : Prog α) (s : σ) (f : φ) :
    p.run (h.withFrame φ) (s, f)
      = ⟨(p.run h s).trace, ((p.run h s).state, f), (p.run h s).outcome⟩ := by
  induction p generalizing s with
  | ret a => rfl
  | call c k ih =>
    rcases hcs : h.answer c s with ⟨s1, e | a⟩
    · have hw : (h.withFrame φ).answer c (s, f) = ((s1, f), .error e) := by
        simp [Host.withFrame, hcs]
      simp only [Prog.run, hw, hcs]
    · have hw : (h.withFrame φ).answer c (s, f) = ((s1, f), .ok a) := by
        simp [Host.withFrame, hcs]
      simp only [Prog.run, hw, hcs, ih a s1]

/-! ## Theorems -/

/-- C1: whenever the host's lookup returns (`GetInstance` yields `manager`,
    then `GetRegistrar manager r` yields `w`), running the registration
    function on the handle `r` makes exactly the calls `GetInstance`,
    `GetRegistrar manager r`, `RegisterWithRegistrar w`, in this order:
    `RegisterWithRegistrar` is called exactly once, on the very pointer the
    lookup returned for `r`; the lookup is made exactly once, with `r`, before
    it; there is no other call; the state and the outcome are those of
    `RegisterWithRegistrar`, and a returned value is the unit value. -/
theorem c_api_registers_looked_up_registrar {σ ε : Type} (h : Host σ ε)
    (s s1 s2 : σ) (r : FlutterDesktopPluginRegistrarRef) (manager w : Nat)
    (hInstance : h.answer .GetInstance s = (s1, .ok manager))
    (hLookup : h.answer (.GetRegistrar manager r) s1 = (s2, .ok w)) :
    ((FlutterFeatureTourPluginCApiRegisterWithRegistrar r).run h s).trace
        = [.GetInstance, .GetRegistrar manager r, .RegisterWithRegistrar w]
    ∧ ((FlutterFeatureTourPluginCApiRegisterWithRegistrar r).run h s).trace.filter
        HostCall.isRegisterWithRegistrar = [.RegisterWithRegistrar w]
    ∧ ((FlutterFeatureTourPluginCApiRegisterWithRegistrar r).run h s).trace.filter
        HostCall.isGetRegistrar = [.GetRegistrar manager r]
    ∧ ((FlutterFeatureTourPluginCApiRegisterWithRegistrar r).run h s).state
        = (h.answer (.RegisterWithRegistrar w) s2).1
    ∧ ((FlutterFeatureTourPluginCApiRegisterWithRegistrar r).run h s).outcome
        = (h.answer (.RegisterWithRegistrar w) s2).2
    ∧ ∀ u, ((FlutterFeatureTourPluginCApiRegisterWithRegistrar r).run h s).outcome
        = .ok u → u = () := by
  have hrun : (FlutterFeatureTourPluginCApiRegisterWithRegistrar r).run h s
      = ⟨[.GetInstance, .GetRegistrar manager r, .RegisterWithRegistrar w],
          (h.answer (.RegisterWithRegistrar w) s2).1,
          (h.answer (.RegisterWithRegistrar w) s2).2⟩ := by
    simp only [FlutterFeatureTourPluginCApiRegisterWithRegistrar, Prog.run, hInstance, hLookup]
    rcases h.answer (.RegisterWithRegistrar w) s2 with ⟨s3, e | u⟩
    · rfl
    · rfl
  rw [hrun]
  refine ⟨rfl, ?_, ?_, rfl, rfl, fun u _ => rfl⟩
  · simp [HostCall.isRegisterWithRegistrar]
  · simp [HostCall.isGetRegistrar]

/-- C1 at the handle 5 on the counting host: the lookup returns manager 7 and
    registrar 105, and the calls are `GetInstance`, `GetRegistrar 7 5`,
    `RegisterWithRegistrar 105`. -/
theorem c_api_registers_looked_up_registrar_witness :
    countingHost.answer .GetInstance 0 = (1, .ok (7 : Nat))
    ∧ countingHost.answer (.GetRegistrar 7 5) 1 = (2, .ok (105 : Nat))
    ∧ ((FlutterFeatureTourPluginCApiRegisterWithRegistrar 5).run countingHost 0).trace
        = [.GetInstance, .GetRegistrar 7 5, .RegisterWithRegistrar 105] :=
  ⟨rfl, rfl, (c_api_registers_looked_up_registrar countingHost 0 1 2 5 7 105 rfl rfl).1⟩

/-- C4: the registration function fails exactly when one of its callees
    fails, with that callee's failure: its outcome is a failure `e` if and
    only if the host's registrar lookup fails with `e`, or the lookup yields a
    pointer `w` and `RegisterWithRegistrar w` fails with `e`.  It checks
    neither the handle nor the pointer: once `GetInstance` has returned,
    `GetRegistrar` is called with the handle as given, and whatever pointer
    the lookup yields, the null pointer included, `RegisterWithRegistrar` is
    called with it and its outcome is the outcome of the function. -/
theorem c_api_fails_exactly_with_callees {σ ε : Type} (h : Host σ ε) (s : σ)
    (r : FlutterDesktopPluginRegistrarRef) :
    (∀ e, ((FlutterFeatureTourPluginCApiRegisterWithRegistrar r).run h s).outcome = .error e ↔
        ((registrarLookup h r s).2 = .error e
          ∨ ∃ w, (registrarLookup h r s).2 = .ok w
              ∧ (h.answer (.RegisterWithRegistrar w) (registrarLookup h r s).1).2 = .error e))
    ∧ (∀ s1 manager, h.answer .GetInstance s = (s1, .ok manager) →
        HostCall.GetRegistrar manager r
          ∈ ((FlutterFeatureTourPluginCApiRegisterWithRegistrar r).run h s).trace)
    ∧ (∀ w, (registrarLookup h r s).2 = .ok w →
        HostCall.RegisterWithRegistrar w
            ∈ ((FlutterFeatureTourPluginCApiRegisterWithRegistrar r).run h s).trace
          ∧ ((FlutterFeatureTourPluginCApiRegisterWithRegistrar r).run h s).outcome
            = (h.answer (.RegisterWithRegistrar w) (registrarLookup h r s).1).2)
    ∧ ((registrarLookup h r s).2 = .ok nullptr →
        HostCall.RegisterWithRegistrar nullptr
          ∈ ((FlutterFeatureTourPluginCApiRegisterWithRegistrar r).run h s).trace) := by
  rcases hI : h.answer .GetInstance s with ⟨s1, e1 | manager⟩
  · simp [FlutterFeatureTourPluginCApiRegisterWithRegistrar, Prog.run, registrarLookup, hI]
  · rcases hL : h.answer (.GetRegistrar manager r) s1 with ⟨s2, e2 | w⟩
    · simp [FlutterFeatureTourPluginCApiRegisterWithRegistrar, Prog.run, registrarLookup, hI, hL]
    · rcases hR : h.answer (.RegisterWithRegistrar w) s2 with ⟨s3, e3 | u⟩
      · simp [FlutterFeatureTourPluginCApiRegisterWithRegistrar, Prog.run, registrarLookup,
          hI, hL, hR]
        intro hw
        subst hw
        simp [hR]
      · simp [FlutterFeatureTourPluginCApiRegisterWithRegistrar, Prog.run, registrarLookup,
          hI, hL, hR]
        exact ⟨rfl, fun hw => hw.symm⟩

/-- C4 at the handle 0 on the stateless host, whose lookup yields the null
    pointer: `RegisterWithRegistrar` is called with the null pointer all the
    same, and its failure is the failure of the function. -/
theorem c_api_fails_exactly_with_callees_witness :
    (registrarLookup statelessHost 0 3).2 = .ok nullptr
    ∧ HostCall.RegisterWithRegistrar nullptr
        ∈ ((FlutterFeatureTourPluginCApiRegisterWithRegistrar 0).run statelessHost 3).trace
    ∧ ((FlutterFeatureTourPluginCApiRegisterWithRegistrar 0).run statelessHost 3).outcome
        = .error "null registrar" :=
  ⟨rfl, ((c_api_fails_exactly_with_callees statelessHost 3 0).2.2.1 nullptr rfl).1,
    ((c_api_fails_exactly_with_callees statelessHost 3 0).1 "null registrar").2
      (Or.inr ⟨nullptr, rfl, rfl⟩)⟩

/-- C5, as stated, fails at concrete inputs: a call of the registration
    function does change what a later call observes, and the effect of a later
    call does depend on an earlier one, through the state its callees keep.
    On the counting host a call from the state 0 leaves the state 3, and the
    same call made after it leaves 6.  With the modelled registration on the
    creating framework, from the empty world at the handle 5: before the call
    there is no registrar object at address 105, after it there is one with
    one channel, and the same call made again leaves it with two channels, not
    the one it leaves when made alone. -/
theorem c_api_later_call_observes_earlier_call :
    ((FlutterFeatureTourPluginCApiRegisterWithRegistrar 5).run countingHost 0).state = 3
    ∧ ((FlutterFeatureTourPluginCApiRegisterWithRegistrar 5).run countingHost
        ((FlutterFeatureTourPluginCApiRegisterWithRegistrar 5).run countingHost 0).state).state
        = 6
    ∧ (emptyWorld.registrars 105).map (fun registrar => registrar.channels.length) = none
    ∧ (((FlutterFeatureTourPluginCApiRegisterWithRegistrar 5).run
          (pluginHost "flutter_feature_tour" pingLogic "no registrar" creatingFramework)
          emptyWorld).state.registrars 105).map (fun registrar => registrar.channels.length)
        = some 1
    ∧ (((FlutterFeatureTourPluginCApiRegisterWithRegistrar 5).run
          (pluginHost "flutter_feature_tour" pingLogic "no registrar" creatingFramework)
          ((FlutterFeatureTourPluginCApiRegisterWithRegistrar 5).run
            (pluginHost "flutter_feature_tour" pingLogic "no registrar" creatingFramework)
            emptyWorld).state).state.registrars 105).map
          (fun registrar => registrar.channels.length)
        = some 2
    ∧ ¬ ((((FlutterFeatureTourPluginCApiRegisterWithRegistrar 5).run
          (pluginHost "flutter_feature_tour" pingLogic "no registrar" creatingFramework)
          ((FlutterFeatureTourPluginCApiRegisterWithRegistrar 5).run
            (pluginHost "flutter_feature_tour" pingLogic "no registrar" creatingFramework)
            emptyWorld).state).state.registrars 105).map
          (fun registrar => registrar.channels.length)
        = (((FlutterFeatureTourPluginCApiRegisterWithRegistrar 5).run
          (pluginHost "flutter_feature_tour" pingLogic "no registrar" creatingFramework)
          emptyWorld).state.registrars 105).map
          (fun registrar => registrar.channels.length)) := by
  refine ⟨rfl, rfl, rfl, rfl, rfl, ?_⟩
  intro hSame
  have hOnce : (((FlutterFeatureTourPluginCApiRegisterWithRegistrar 5).run
      (pluginHost "flutter_feature_tour" pingLogic "no registrar" creatingFramework)
      emptyWorld).state.registrars 105).map (fun registrar => registrar.channels.length)
      = some 1 := rfl
  have hTwice : (((FlutterFeatureTourPluginCApiRegisterWithRegistrar 5).run
      (pluginHost "flutter_feature_tour" pingLogic "no registrar" creatingFramework)
      ((FlutterFeatureTourPluginCApiRegisterWithRegistrar 5).run
        (pluginHost "flutter_feature_tour" pingLogic "no registrar" creatingFramework)
        emptyWorld).state).state.registrars 105).map
      (fun registrar => registrar.channels.length) = some 2 := rfl
  rw [hOnce, hTwice] at hSame
  exact absurd hSame (by decide)

/-- C5, amended: the fragment itself holds no state.  The class declares no
    data member, per object or static, so any two plugin objects are equal.
    The registration function reads and writes state only through its three
    callees: for every host, state and handle, the state a call leaves and
    its outcome are exactly those of the callees run one after the other (the
    registrar lookup, then `RegisterWithRegistrar` on the pointer it yields),
    and next to further state that the callees neither touch nor consult the
    call leaves the same state and outcome and hands the further state back
    as it was.  What a call changes for a later call, and what it takes from
    an earlier one, is what these callees change and consult. -/
theorem c_api_state_is_the_callees {σ ε : Type} (h : Host σ ε) (s : σ)
    (r : FlutterDesktopPluginRegistrarRef) :
    (∀ p q : flutter_feature_tour.FlutterFeatureTourPlugin, p = q)
    ∧ flutter_feature_tour.FlutterFeatureTourPlugin.members.filter
        (fun m => m.1.isData) = []
    ∧ (((FlutterFeatureTourPluginCApiRegisterWithRegistrar r).run h s).state,
        ((FlutterFeatureTourPluginCApiRegisterWithRegistrar r).run h s).outcome)
        = calleesInSequence h r s
    ∧ ∀ (φ : Type) (f : φ),
        ((FlutterFeatureTourPluginCApiRegisterWithRegistrar r).run (h.withFrame φ) (s, f)).state
            = ((calleesInSequence h r s).1, f)
          ∧ ((FlutterFeatureTourPluginCApiRegisterWithRegistrar r).run
              (h.withFrame φ) (s, f)).outcome = (calleesInSequence h r s).2 := by
  have hRun : (((FlutterFeatureTourPluginCApiRegisterWithRegistrar r).run h s).state,
      ((FlutterFeatureTourPluginCApiRegisterWithRegistrar r).run h s).outcome)
      = calleesInSequence h r s := by
    rcases hI : h.answer .GetInstance s with ⟨s1, e1 | manager⟩
    · simp [FlutterFeatureTourPluginCApiRegisterWithRegistrar, Prog.run, calleesInSequence,
        registrarLookup, hI]
    · rcases hL : h.answer (.GetRegistrar manager r) s1 with ⟨s2, e2 | w⟩
      · simp [FlutterFeatureTourPluginCApiRegisterWithRegistrar, Prog.run, calleesInSequence,
          registrarLookup, hI, hL]
      · rcases hR : h.answer (.RegisterWithRegistrar w) s2 with ⟨s3, e3 | u⟩
        · simp [FlutterFeatureTourPluginCApiRegisterWithRegistrar, Prog.run,
            calleesInSequence, registrarLookup, hI, hL, hR]
        · simp [FlutterFeatureTourPluginCApiRegisterWithRegistrar, Prog.run,
            calleesInSequence, registrarLookup, hI, hL, hR]
          rfl
  refine ⟨fun p q => rfl, by decide, hRun, fun φ f => ?_⟩
  rw [Prog.run_withFrame h _ s f, ← hRun]
  exact ⟨rfl, rfl⟩

/-- C2: in the model of the absent handler body, `HandleMethodCall` answers
    every method call through the result callback it is given, whatever the
    method name, the arguments and the handling logic: the callback passed in
    gains exactly one reply, the one the logic picks for the call, so it is
    completed; a callback not answered before holds exactly that reply; and
    the reply is a success, an error or not-implemented. -/
theorem handle_method_call_completes_result (logic : MethodCall → Reply)
    (self : flutter_feature_tour.FlutterFeatureTourPlugin) (method_call : MethodCall)
    (result : MethodResult) :
    (self.HandleMethodCall logic method_call result).replies
        = result.replies ++ [logic method_call]
    ∧ (self.HandleMethodCall logic method_call result).completed = true
    ∧ (self.HandleMethodCall logic method_call MethodResult.pending).replies
        = [logic method_call]
    ∧ ((∃ value, logic method_call = .Success value)
        ∨ (∃ code message details, logic method_call = .Error code message details)
        ∨ logic method_call = .NotImplemented) := by
  refine ⟨rfl, ?_, rfl, ?_⟩
  · simp [flutter_feature_tour.FlutterFeatureTourPlugin.HandleMethodCall,
      MethodResult.complete, MethodResult.completed]
  · cases logic method_call with
    | Success value => exact Or.inl ⟨value, rfl⟩
    | Error code message details => exact Or.inr (Or.inl ⟨code, message, details, rfl⟩)
    | NotImplemented => exact Or.inr (Or.inr rfl)

/-- C3: in the model of the absent registration body, for every registrar
    `RegisterWithRegistrar` registers on it a channel whose method-call
    handler is the plugin's `HandleMethodCall`.  Hence, when the framework's
    lookup for the handle `r` yields a pointer `w` to a registrar object, the
    registration function returns, the object at `w` is afterwards the
    registered one, and a method call delivered on the channel of that object
    is handled by `HandleMethodCall`: a callback not answered before holds
    the reply the handling logic picks. -/
theorem registration_makes_plugin_reachable {τ ε : Type} (channelName : String)
    (logic : MethodCall → Reply) (invalid : ε) (framework : Host (World τ) ε)
    (s s2 : World τ) (r : FlutterDesktopPluginRegistrarRef) (w : Nat)
    (registrar : PluginRegistrarWindows)
    (hLookup : registrarLookup framework r s = (s2, .ok w))
    (hLive : s2.registrars w = some registrar) :
    (∀ anyRegistrar plugin,
        (flutter_feature_tour.FlutterFeatureTourPlugin.RegisterWithRegistrar
          channelName logic anyRegistrar).channels.lookup channelName
          = some (flutter_feature_tour.FlutterFeatureTourPlugin.HandleMethodCall logic plugin))
    ∧ ((FlutterFeatureTourPluginCApiRegisterWithRegistrar r).run
          (pluginHost channelName logic invalid framework) s).outcome = .ok ()
    ∧ ∃ registered,
        ((FlutterFeatureTourPluginCApiRegisterWithRegistrar r).run
          (pluginHost channelName logic invalid framework) s).state.registrars w
          = some registered
        ∧ registered = flutter_feature_tour.FlutterFeatureTourPlugin.RegisterWithRegistrar
            channelName logic registrar
        ∧ (∀ plugin method_call result,
            registered.deliver channelName method_call result
              = flutter_feature_tour.FlutterFeatureTourPlugin.HandleMethodCall logic plugin
                  method_call result)
        ∧ ∀ method_call,
            (registered.deliver channelName method_call MethodResult.pending).replies
              = [logic method_call] := by
  have hReg : ∀ anyRegistrar (plugin : flutter_feature_tour.FlutterFeatureTourPlugin),
      (flutter_feature_tour.FlutterFeatureTourPlugin.RegisterWithRegistrar
        channelName logic anyRegistrar).channels.lookup channelName
        = some (flutter_feature_tour.FlutterFeatureTourPlugin.HandleMethodCall logic plugin) := by
    intro anyRegistrar plugin
    simp [flutter_feature_tour.FlutterFeatureTourPlugin.RegisterWithRegistrar, List.lookup]
  refine ⟨hReg, ?_, ?_⟩
  · rcases hI : framework.answer .GetInstance s with ⟨s1, e1 | manager⟩
    · simp [registrarLookup, hI] at hLookup
    · simp only [registrarLookup, hI] at hLookup
      simp [FlutterFeatureTourPluginCApiRegisterWithRegistrar, Prog.run, pluginHost, hI,
        hLookup, hLive]
  · refine ⟨_, ?_, rfl, ?_, ?_⟩
    · rcases hI : framework.answer .GetInstance s with ⟨s1, e1 | manager⟩
      · simp [registrarLookup, hI] at hLookup
      · simp only [registrarLookup, hI] at hLookup
        simp [FlutterFeatureTourPluginCApiRegisterWithRegistrar, Prog.run, pluginHost, hI,
          hLookup, hLive]
    · intro plugin method_call result
      simp only [PluginRegistrarWindows.deliver, hReg registrar plugin]
    · intro method_call
      simp only [PluginRegistrarWindows.deliver, hReg registrar {}]
      rfl

/-- C3 on the creating framework, from the empty world, at the handle 5: the
    lookup creates the registrar object at address 105, the registration
    function returns, and a `ping` delivered on the channel
    `flutter_feature_tour` of the object at 105 is answered with success. -/
theorem registration_makes_plugin_reachable_witness :
    (registrarLookup creatingFramework 5 emptyWorld).2 = .ok (105 : Nat)
    ∧ (registrarLookup creatingFramework 5 emptyWorld).1.registrars 105 = some ⟨[]⟩
    ∧ ((FlutterFeatureTourPluginCApiRegisterWithRegistrar 5).run
          (pluginHost "flutter_feature_tour" pingLogic "no registrar" creatingFramework)
          emptyWorld).outcome = .ok ()
    ∧ ∃ registered,
        ((FlutterFeatureTourPluginCApiRegisterWithRegistrar 5).run
          (pluginHost "flutter_feature_tour" pingLogic "no registrar" creatingFramework)
          emptyWorld).state.registrars 105 = some registered
        ∧ (registered.deliver "flutter_feature_tour" ⟨"ping", .null⟩
            MethodResult.pending).replies = [.Success (.string "pong")] := by
  have h := registration_makes_plugin_reachable "flutter_feature_tour" pingLogic
    "no registrar" creatingFramework emptyWorld
    (registrarLookup creatingFramework 5 emptyWorld).1 5 105 ⟨[]⟩ rfl rfl
  obtain ⟨_, hOutcome, registered, hState, _, _, hReply⟩ := h
  exact ⟨rfl, rfl, hOutcome, registered, hState, by rw [hReply ⟨"ping", .null⟩]; rfl⟩
